import Mathlib

/-!
Shallow embedding of the camera / viewer logic of `src/viewer.rs`
(`gltf-viewer`): the camera-selection branch of `GltfViewer::new`,
`GltfViewer::load`, `set_camera_from_bounds`, the Δt computation of
`start_render_loop`, the filename derivation of `multiscreenshot`, and the
mouse-input handling of `process_events`.  Machine integers are modelled
as `Int`/`Nat`; `f32`/`f64` values are modelled as exact reals or
rationals.
-/

namespace GltfViewer

/-! ## Basic vector / options model -/

/-- A 3-component vector; models `Vector3` / `Point3<f32>` with exact reals. -/
structure Vec3 where
  x : ℝ
  y : ℝ
  z : ℝ

/-- Componentwise subtraction, as `bounds.max - bounds.min`. -/
noncomputable def Vec3.sub (a b : Vec3) : Vec3 := ⟨a.x - b.x, a.y - b.y, a.z - b.z⟩

/-- Euclidean length, as cgmath's `.magnitude()` on `f32` vectors. -/
noncomputable def Vec3.magnitude (v : Vec3) : ℝ :=
  Real.sqrt (v.x ^ 2 + v.y ^ 2 + v.z ^ 2)

/-- The `CameraOptions` struct from `src/viewer.rs`: `index: i32`, optional position
and target, field of view. -/
structure CameraOptions where
  index : Int
  position : Option Vec3
  target : Option Vec3
  fovy : ℝ

/-- Axis-aligned bounding box of the scene (`scene.bounds`), with `min`
and `max` corners, as provided by the external `collision::Aabb3`
collaborator. -/
structure Bounds where
  bmin : Vec3
  bmax : Vec3

/-- Midpoint of the two corners, as `bounds.center()`, per the collaborator
contract (`Scene::bounds: { min, max, center() }`, center = (min+max)/2). -/
noncomputable def Bounds.center (b : Bounds) : Vec3 :=
  ⟨(b.bmin.x + b.bmax.x) / 2, (b.bmin.y + b.bmax.y) / 2, (b.bmin.z + b.bmax.z) / 2⟩

/-! ## `set_camera_from_bounds` (src/viewer.rs lines 245-264) -/

/-- The camera pose (`orbit_controls.position`, `orbit_controls.target`)
produced by a setup path. -/
structure Pose where
  position : Vec3
  target : Vec3

/-- Embeds `GltfViewer::set_camera_from_bounds`: `size = (max - min).magnitude()`,
`center = bounds.center()`, `cam_pos = center + (size/2, size/5, size/2)`;
sets `orbit_controls.position = cam_pos`, `orbit_controls.target = center`. -/
noncomputable def set_camera_from_bounds (bounds : Bounds) : Pose :=
  let size := (bounds.bmax.sub bounds.bmin).magnitude
  let center := bounds.center
  let cam_pos : Vec3 := ⟨center.x + size / 2, center.y + size / 5, center.z + size / 2⟩
  ⟨cam_pos, center⟩

/-! ## The camera-selection branch of `GltfViewer::new` (lines 175-198) -/

/-- Bitwise complement of Rust, `!i` on `i32`, which for any in-range value
equals `-1 - i` (two's complement; no wrap can occur since `-1 - i` stays
in `i32` range for `i` in `i32` range). -/
def i32Not (i : Int) : Int := -1 - i

/-- How the constructor finishes setting up the orbit controls. -/
inductive SetupResult where
  /-- Case in which `process::exit(code)` was reached. -/
  | exit (code : Nat)
  /-- The branch adopting a glTF camera node: `set_camera` was called with
  camera node `camIndex`'s camera and final transform; `warned` records
  whether the "Ignoring --cam-pos / --cam-target" warning was logged. -/
  | adopted (camIndex : Nat) (warned : Bool)
  /-- The bounds branch: `set_camera_from_bounds` ran, then the optional
  position/target overrides were applied; `pose` is the resulting
  controls pose. -/
  | fromBounds (pose : Pose)

/-- The tail of `GltfViewer::new` (lines 175-198): the guard is literally
`!viewer.root.camera_nodes.is_empty() && !camera_options.index == -1`
(Rust parses the second conjunct as `(!index) == -1`, bitwise NOT);
inside it, `index >= camera_nodes.len() as i32` exits with code 2,
otherwise `set_camera` adopts node `index` and a warning is logged when a
position or target override is also present; in the else branch the pose
comes from `set_camera_from_bounds`, then `position`/`target` overrides
are applied when present. `numCams` is `root.camera_nodes.len()`. -/
noncomputable def newCameraSetup (numCams : Nat) (bounds : Bounds)
    (opts : CameraOptions) : SetupResult :=
  if numCams ≠ 0 ∧ i32Not opts.index = -1 then
    if opts.index ≥ (numCams : Int) then
      .exit 2
    else
      .adopted opts.index.toNat (opts.position.isSome || opts.target.isSome)
  else
    let fit := set_camera_from_bounds bounds
    let pos := match opts.position with
      | some p => p
      | none => fit.position
    let tgt := match opts.target with
      | some t => t
      | none => fit.target
    .fromBounds ⟨pos, tgt⟩

/-! ## `GltfViewer::load` (lines 203-242) -/

/-- Outcome of `GltfViewer::load`. -/
inductive LoadResult where
  /-- Case in which `panic!` was reached with the given message. -/
  | panicked (msg : String)
  /-- Case in which `process::exit(code)` was reached. -/
  | exit (code : Nat)
  /-- Import succeeded; `multiScene` records whether the "more than 1
  scene" warning was logged. -/
  | loaded (multiScene : Bool)
deriving Repr, DecidableEq

/-- Test whether `l` begins with `p`, as Rust `str::starts_with` on the
character sequence. -/
def beginsWith : List Char → List Char → Bool
  | _, [] => true
  | [], _ :: _ => false
  | c :: cs, p :: ps => c = p && beginsWith cs ps

/-- Embeds `GltfViewer::load`: panics when the source starts with `"http"`;
otherwise runs the external importer (modelled by its outcome
`importOk`), exiting with code 1 on failure; on success warns when the
document has more than one scene and loads the first.  `numScenes` is
`gltf.scenes().len()` of the imported document. -/
def load (importOk : Bool) (numScenes : Nat) (source : List Char) : LoadResult :=
  if beginsWith source ['h', 't', 't', 'p'] then
    .panicked "not implemented: HTTP support temporarily removed."
  else if importOk then
    .loaded (decide (numScenes > 1))
  else
    .exit 1

/-! ## Δt computation of `start_render_loop` (lines 268-271) -/

/-- The per-frame `delta_time`:
`f64::from(last_frame.elapsed().subsec_nanos()) / 1_000_000_000.0`,
where the elapsed `Duration` is `elapsedNanos` nanoseconds and
`subsec_nanos()` is the sub-second component `elapsedNanos % 10^9`. -/
def deltaTime (elapsedNanos : Nat) : ℚ :=
  ((elapsedNanos % 1000000000 : Nat) : ℚ) / 1000000000

/-! ## `multiscreenshot` filename derivation (lines 338-349) -/

/-- Byte index of the rightmost `'.'`, as `str::rfind('.')`; filenames
are modelled as lists of characters. -/
def rfindDot : List Char → Option Nat
  | [] => none
  | c :: cs =>
    match rfindDot cs with
    | some i => some (i + 1)
    | none => if c = '.' then some 0 else none

/-- Filename written by one iteration: `let dot = filename.rfind('.')
.unwrap_or_else(|| filename.len()); actual_name.insert_str(dot, suffix)`. -/
def screenshotName (filename suffix : List Char) : List Char :=
  let dot := (rfindDot filename).getD filename.length
  filename.take dot ++ suffix ++ filename.drop dot

/-- The suffix `format!("_{}", i)` for iteration `i`. -/
def iterSuffix (i : Nat) : List Char := '_' :: Nat.toDigits 10 i

/-- Embeds `GltfViewer::multiscreenshot`: `increment_angle = (2π - 0)/count`;
for `i` in `1..=count`, `rotate_object(increment_angle)` then
`screenshot` to the derived name.  The result lists, in order, the
rotation angle applied and the filename written at each iteration. -/
noncomputable def multiscreenshot (filename : List Char) (count : Nat) :
    List (ℝ × List Char) :=
  (List.range count).map fun k =>
    ((2 * Real.pi - 0) / count, screenshotName filename (iterSuffix (k + 1)))

/-! ## Mouse-input handling of `process_events` (lines 379-408) -/

/-- The `NavState` enum of `OrbitControls` (declared in `src/controls.rs`, not
part of the provided sources; variants per the specification:
None, Rotating, Panning, FirstPerson). -/
inductive NavState where
  | none
  | rotating
  | panning
  | firstPerson
deriving Repr, DecidableEq

/-- Mouse buttons, as `glutin::MouseButton`. -/
inductive MButton where
  | left
  | right
  | middle
  | other (n : Nat)
deriving Repr, DecidableEq

/-- Press or release, as `glutin::ElementState`. -/
inductive ElemState where
  | pressed
  | released
deriving Repr, DecidableEq

/-- The part of the `OrbitControls` state touched by mouse-button
events: `state` (`nav_state`) and `last_cursor`. -/
structure Controls where
  state : NavState
  lastCursor : Option (ℚ × ℚ)
deriving Repr, DecidableEq

/-- Modelled from the spec: `OrbitControls::handle_mouse_up` lives in
`src/controls.rs`, which is not among the provided sources; per the
specification it clears `last_cursor`. -/
def handle_mouse_up (c : Controls) : Controls :=
  { c with lastCursor := none }

/-- The `WindowEvent::MouseInput` arms of `process_events`: a Left press
sets `orbit_controls.state := Rotating`, a Right press sets it to
`Panning`, other pressed buttons do nothing; on release, the pair
`(button, state)` matching `(Left, Rotating)` or `(Right, Panning)` sets
the state to `None` and calls `handle_mouse_up()`, everything else does
nothing. -/
def processMouseInput (button : MButton) (elem : ElemState) (c : Controls) :
    Controls :=
  match elem with
  | .pressed =>
    match button with
    | .left => { c with state := .rotating }
    | .right => { c with state := .panning }
    | _ => c
  | .released =>
    match button, c.state with
    | .left, .rotating => handle_mouse_up { c with state := .none }
    | .right, .panning => handle_mouse_up { c with state := .none }
    | _, _ => c

/-- The `glutin::MouseScrollDelta` enum: either a pixel delta `(x, y)` or a line
delta `(rows, lines)`. -/
inductive ScrollDelta where
  | pixelDelta (x y : ℚ)
  | lineDelta (rows lines : ℚ)
deriving Repr, DecidableEq

/-- The `WindowEvent::MouseWheel` arms of `process_events`: both call
`orbit_controls.process_mouse_scroll`, the pixel flavor with `yoffset`
itself, the line flavor with `lines * 3.0`.  The function returns the
argument passed to `process_mouse_scroll`. -/
def scrollZoomArg : ScrollDelta → ℚ
  | .pixelDelta _ y => y
  | .lineDelta _ lines => lines * 3

/-! ## Concrete scene used in evaluations: a 3-4-0 box, whose diagonal
has length 5, so every pose component is rational. -/

/-- Bounds with `min = (0,0,0)`, `max = (3,4,0)`: `size = |max - min| = 5`,
`center = (3/2, 2, 0)`. -/
noncomputable def bounds345 : Bounds := ⟨⟨0, 0, 0⟩, ⟨3, 4, 0⟩⟩

theorem sqrt_twentyfive : Real.sqrt 25 = 5 := by
  rw [show (25 : ℝ) = 5 ^ 2 by norm_num]
  exact Real.sqrt_sq (by norm_num)

theorem fit_bounds345 :
    set_camera_from_bounds bounds345 = ⟨⟨4, 3, 5 / 2⟩, ⟨3 / 2, 2, 0⟩⟩ := by
  have h : ((3 : ℝ) - 0) ^ 2 + (4 - 0) ^ 2 + (0 - 0) ^ 2 = 25 := by norm_num
  simp only [set_camera_from_bounds, Vec3.sub, Vec3.magnitude, Bounds.center, bounds345, h,
    sqrt_twentyfive]
  norm_num

/-- C10: the `process::exit(2)` in `GltfViewer::new` is unreachable:
whenever the camera-adoption branch is entered, its guard
`!camera_nodes.is_empty() && (!index) == -1` forces `index = 0` and a
non-empty camera-node list, under which the bound check
`index >= camera_nodes.len()` is false, so the setup never exits with
code 2. -/
theorem exit2_unreachable (numCams : Nat) (opts : CameraOptions)
    (h : numCams ≠ 0 ∧ i32Not opts.index = -1) :
    opts.index = 0 ∧ 1 ≤ numCams ∧ ¬ opts.index ≥ (numCams : Int) ∧
    ∀ bounds, newCameraSetup numCams bounds opts ≠ .exit 2 := by
  obtain ⟨hne, hnot⟩ := h
  have hidx : opts.index = 0 := by
    simp only [i32Not] at hnot
    omega
  have hlen : 1 ≤ numCams := Nat.one_le_iff_ne_zero.mpr hne
  have hlt : ¬ opts.index ≥ (numCams : Int) := by
    rw [hidx]
    exact not_le.mpr (by exact_mod_cast hlen)
  refine ⟨hidx, hlen, hlt, fun bounds => ?_⟩
  simp [newCameraSetup, hne, hnot, hlt]

/-- Closed instance of `exit2_unreachable` at `numCams = 1`,
`index = 0`. -/
theorem exit2_unreachable_witness :
    ((1 : Nat) ≠ 0 ∧ i32Not 0 = -1) ∧
    newCameraSetup 1 bounds345 ⟨0, none, none, 1⟩ ≠ .exit 2 :=
  ⟨⟨by decide, by decide⟩,
   (exit2_unreachable 1 ⟨0, none, none, 1⟩ ⟨by decide, by decide⟩).2.2.2 bounds345⟩

/-- C2 (failing input): for `index = 5`, out of range of a single-element
camera-node list, the constructor does not exit with code 2; the guard
`(!5) == -1` is false, so it silently falls to the bounds branch. -/
theorem out_of_range_index_no_exit :
    newCameraSetup 1 bounds345 ⟨5, none, none, 1⟩ =
      .fromBounds ⟨⟨4, 3, 5 / 2⟩, ⟨3 / 2, 2, 0⟩⟩ := by
  rw [newCameraSetup, if_neg (by simp [i32Not])]
  simp [fit_bounds345]

/-- C1 (failing input): for `index = 1`, a valid position in a
two-element camera-node list, the constructor does not adopt camera
node 1: the guard `(!1) == -1` is false, so the pose is computed from
scene bounds instead. -/
theorem valid_index_one_not_adopted :
    newCameraSetup 2 bounds345 ⟨1, none, none, 1⟩ =
      .fromBounds ⟨⟨4, 3, 5 / 2⟩, ⟨3 / 2, 2, 0⟩⟩ := by
  rw [newCameraSetup, if_neg (by simp [i32Not])]
  simp [fit_bounds345]

/-- C3 (failing input): with `index = 1` given alongside an explicit
position `(9,9,9)` and two camera nodes, the code takes the bounds
branch, applies the position override and logs no warning, instead of
honoring the index and ignoring the override. -/
theorem position_override_applied_despite_index :
    newCameraSetup 2 bounds345 ⟨1, some ⟨9, 9, 9⟩, none, 1⟩ =
      .fromBounds ⟨⟨9, 9, 9⟩, ⟨3 / 2, 2, 0⟩⟩ := by
  rw [newCameraSetup, if_neg (by simp [i32Not])]
  simp [fit_bounds345]

/-! ## Filename derivation lemmas and the multiscreenshot claim -/

theorem rfindDot_of_not_mem (l : List Char) (h : '.' ∉ l) : rfindDot l = none := by
  induction l with
  | nil => rfl
  | cons c cs ih =>
    simp only [List.mem_cons, not_or] at h
    rw [rfindDot, ih h.2, if_neg (fun hc => h.1 hc.symm)]

theorem rfindDot_append_dot (a b : List Char) (h : '.' ∉ b) :
    rfindDot (a ++ '.' :: b) = some a.length := by
  induction a with
  | nil => simp [rfindDot, rfindDot_of_not_mem b h]
  | cons c cs ih =>
    rw [List.cons_append, rfindDot, ih]
    rfl

theorem screenshotName_with_dot (a b suffix : List Char) (h : '.' ∉ b) :
    screenshotName (a ++ '.' :: b) suffix = a ++ suffix ++ '.' :: b := by
  rw [screenshotName, rfindDot_append_dot a b h]
  simp [List.take_left, List.drop_left]

theorem screenshotName_no_dot (l suffix : List Char) (h : '.' ∉ l) :
    screenshotName l suffix = l ++ suffix := by
  rw [screenshotName, rfindDot_of_not_mem l h]
  simp

/-- C4: `multiscreenshot` performs exactly `count` iterations; the `i`-th
iteration (1-based) rotates the camera by `2π/count` and writes to the
name with `_i` inserted immediately before the rightmost `'.'` of the
filename, or appended at the end when the filename contains no dot. -/
theorem multiscreenshot_spec (filename : List Char) (count : Nat)
    (hcount : 1 ≤ count) :
    (multiscreenshot filename count).length = count ∧
    (∀ i, 1 ≤ i → i ≤ count →
      (multiscreenshot filename count)[i - 1]? =
        some (2 * Real.pi / count, screenshotName filename (iterSuffix i))) ∧
    (∀ a b suffix, filename = a ++ '.' :: b → '.' ∉ b →
      screenshotName filename suffix = a ++ suffix ++ '.' :: b) ∧
    ('.' ∉ filename → ∀ suffix, screenshotName filename suffix = filename ++ suffix) := by
  refine ⟨by simp [multiscreenshot], ?_, ?_, ?_⟩
  · intro i h1 h2
    have hi : i - 1 + 1 = i := by omega
    have hlt : i - 1 < count := by omega
    rw [multiscreenshot, List.getElem?_map, List.getElem?_range hlt]
    simp [hi]
  · intro a b suffix he h
    rw [he]
    exact screenshotName_with_dot a b suffix h
  · intro h suffix
    exact screenshotName_no_dot filename suffix h

/-- Closed instance of `multiscreenshot_spec`: for "a/b.png" the third
shot goes to "a/b_3.png". -/
theorem multiscreenshot_spec_witness :
    screenshotName (['a', '/', 'b', '.', 'p', 'n', 'g']) (iterSuffix 3) =
      ['a', '/', 'b', '_', '3', '.', 'p', 'n', 'g'] := by
  have h := (multiscreenshot_spec (['a', '/', 'b', '.', 'p', 'n', 'g']) 4 (by decide)).2.2.1
    ['a', '/', 'b'] ['p', 'n', 'g'] (iterSuffix 3) rfl (by decide)
  rw [h]
  decide

/-- C5: each frame computes `delta_time` from only the sub-second
nanosecond component of the elapsed time, divided by 1e9: whole elapsed
seconds are discarded and the value always lies in [0, 1). -/
theorem deltaTime_spec (s r n : Nat) :
    deltaTime (s * 1000000000 + r) = deltaTime r ∧
    0 ≤ deltaTime n ∧ deltaTime n < 1 := by
  refine ⟨?_, ?_, ?_⟩
  · have h : (s * 1000000000 + r) % 1000000000 = r % 1000000000 := by omega
    rw [deltaTime, deltaTime, h]
  · exact div_nonneg (by positivity) (by norm_num)
  · rw [deltaTime, div_lt_one (by norm_num)]
    exact_mod_cast Nat.mod_lt _ (by norm_num)

/-- C6: fitting the camera to bounds sets `target = center = (min+max)/2`
and `position = center + (size/2, size/5, size/2)` with
`size = |max - min|`; for the unit cube bounds `(-1,-1,-1)..(1,1,1)` this
gives `position = (√3, 2√3/5, √3)` and `target = (0,0,0)`. -/
theorem fit_camera_to_bounds_spec (bounds : Bounds) (size : ℝ)
    (hsize : size = Real.sqrt ((bounds.bmax.x - bounds.bmin.x) ^ 2 +
      (bounds.bmax.y - bounds.bmin.y) ^ 2 + (bounds.bmax.z - bounds.bmin.z) ^ 2)) :
    (set_camera_from_bounds bounds).target = bounds.center ∧
    bounds.center = ⟨(bounds.bmin.x + bounds.bmax.x) / 2, (bounds.bmin.y + bounds.bmax.y) / 2,
      (bounds.bmin.z + bounds.bmax.z) / 2⟩ ∧
    (set_camera_from_bounds bounds).position =
      ⟨bounds.center.x + size / 2, bounds.center.y + size / 5, bounds.center.z + size / 2⟩ ∧
    set_camera_from_bounds ⟨⟨-1, -1, -1⟩, ⟨1, 1, 1⟩⟩ =
      ⟨⟨Real.sqrt 3, 2 * Real.sqrt 3 / 5, Real.sqrt 3⟩, ⟨0, 0, 0⟩⟩ := by
  have h12 : Real.sqrt 12 = 2 * Real.sqrt 3 := by
    rw [show (12 : ℝ) = 2 ^ 2 * 3 by norm_num, Real.sqrt_mul (by positivity),
      Real.sqrt_sq (by norm_num)]
  refine ⟨rfl, rfl, ?_, ?_⟩
  · simp [set_camera_from_bounds, Vec3.sub, Vec3.magnitude, Bounds.center, hsize]
  · have harg : ((1 : ℝ) - -1) ^ 2 + (1 - -1) ^ 2 + (1 - -1) ^ 2 = 12 := by norm_num
    simp only [set_camera_from_bounds, Vec3.sub, Vec3.magnitude, Bounds.center, harg, h12]
    norm_num

/-- Closed instance of `fit_camera_to_bounds_spec` at the 3-4-0 box,
whose diagonal has length 5. -/
theorem fit_camera_to_bounds_spec_witness :
    (set_camera_from_bounds bounds345).position =
      ⟨bounds345.center.x + 5 / 2, bounds345.center.y + 5 / 5, bounds345.center.z + 5 / 2⟩ :=
  (fit_camera_to_bounds_spec bounds345 5 (by
    simp only [bounds345]
    norm_num
    exact sqrt_twentyfive.symm)).2.2.1

/-! ## Mouse-button state machine, scroll unification, and load claims -/

/-- C7: the `MouseInput` handling realises the nav-state machine: a Left
press sets `Rotating`, a Right press sets `Panning`, a Left release in
`Rotating` or a Right release in `Panning` sets `None` and clears the
last cursor via `handle_mouse_up`; any other press, and any release not
matching the current state, leaves the controls unchanged. -/
theorem mouse_state_machine (c : Controls) (b : MButton) :
    processMouseInput .left .pressed c = { c with state := .rotating } ∧
    processMouseInput .right .pressed c = { c with state := .panning } ∧
    (b ≠ .left → b ≠ .right → processMouseInput b .pressed c = c) ∧
    (c.state = .rotating →
      processMouseInput .left .released c = ⟨NavState.none, Option.none⟩) ∧
    (c.state = .panning →
      processMouseInput .right .released c = ⟨NavState.none, Option.none⟩) ∧
    (¬(b = .left ∧ c.state = .rotating) → ¬(b = .right ∧ c.state = .panning) →
      processMouseInput b .released c = c) := by
  obtain ⟨st, lc⟩ := c
  refine ⟨rfl, rfl, ?_, ?_, ?_, ?_⟩
  · intro h1 h2
    cases b <;> simp_all [processMouseInput]
  · intro h
    simp only at h
    subst h
    rfl
  · intro h
    simp only at h
    subst h
    rfl
  · intro h1 h2
    cases b <;> cases st <;> simp_all [processMouseInput, handle_mouse_up]

/-- Closed instance of `mouse_state_machine`: releasing Left while
rotating resets the state and clears the last cursor. -/
theorem mouse_state_machine_witness :
    processMouseInput .left .released ⟨NavState.rotating, some (1, 2)⟩ =
      ⟨NavState.none, Option.none⟩ :=
  (mouse_state_machine ⟨NavState.rotating, some (1, 2)⟩ .middle).2.2.2.1 rfl

/-- C8: both wheel flavors funnel into `process_mouse_scroll`: a pixel
delta passes `yoffset` through unchanged, a line delta is multiplied by
3, so a line delta of `L` has the same effect as a pixel delta of
`3·L`. -/
theorem scroll_unified (x y rows lines : ℚ) :
    scrollZoomArg (.pixelDelta x y) = y ∧
    scrollZoomArg (.lineDelta rows lines) = 3 * lines ∧
    scrollZoomArg (.lineDelta rows lines) = scrollZoomArg (.pixelDelta x (3 * lines)) := by
  refine ⟨rfl, ?_, ?_⟩ <;> simp [scrollZoomArg, mul_comm]

/-- C9: for every source string beginning with "http", `load` panics
before attempting any import: it neither exits with the importer-failure
code 1 nor returns a loaded scene, whatever the importer would do. -/
theorem load_http_panics (importOk : Bool) (numScenes : Nat) (source : List Char)
    (h : beginsWith source ['h', 't', 't', 'p']) :
    load importOk numScenes source =
      .panicked "not implemented: HTTP support temporarily removed." ∧
    load importOk numScenes source ≠ .exit 1 ∧
    ∀ m, load importOk numScenes source ≠ .loaded m := by
  simp [load, h]

/-- Closed instance of `load_http_panics` at an http URL. -/
theorem load_http_panics_witness :
    load true 1 (['h', 't', 't', 'p', ':', '/', '/', 'x', '.', 'g', 'l', 't', 'f']) =
      .panicked "not implemented: HTTP support temporarily removed." :=
  (load_http_panics true 1 (['h', 't', 't', 'p', ':', '/', '/', 'x', '.', 'g', 'l', 't', 'f'])
    (by decide)).1

end GltfViewer
